import Mathlib

/-!
# Host tunnel establishment (`hosts/tunnel.go`)

A shallow embedding of `Host.TunnelUp`, `privateKeyPath` and `checkEncryptedKey`.

Go values are embedded as follows.

* A Go `string` is a Lean `String`; `len(s)` is `s.utf8ByteSize` (a byte count).
* A Go `error` is observed through its `Error()` text (`GoError`); the nil error is `none`.
* A Go multi-value return `(v, err)` is a pair: Go does not force one of the two to be nil.
* Pointers and interfaces that may be nil (`*client.Client`, `*http.Client`, `ssh.Signer`)
  are `Option`s.
* Calls that leave the package (Docker client, logging, terminal, file system, key parsing)
  are fields of an environment record; every such call is also recorded, in program order,
  in the trace of the run, so that "this call is not made" is a statement about the trace.
* A run-time panic of the Go code is the `panicked` outcome.
-/

namespace hosts

/-! ## Values -/

/-- The observable content of a Go `error`: the text its `Error()` method returns. -/
structure GoError where
  Error : String
  deriving DecidableEq, Repr

/-- The Docker engine client `*client.Client` (identified by a number). -/
structure Client where
  id : Nat
  deriving DecidableEq, Repr

/-- The HTTP client `*http.Client` whose transport dials through the tunnel. -/
structure HTTPClient where
  id : Nat
  deriving DecidableEq, Repr

/-- The dial function a dialer factory yields. -/
structure Dialer where
  id : Nat
  deriving DecidableEq, Repr

/-- The daemon snapshot `types.Info`; `ServerVersion` is the only field `TunnelUp` reads. -/
structure types.Info where
  ServerVersion : String
  deriving DecidableEq, Repr

/-- The credential `ssh.Signer` (identified by a number). -/
structure Signer where
  id : Nat
  deriving DecidableEq, Repr

/-- Modelled from the spec: the declaration of the `Host` type is not in `tunnel.go`.
The fields are the attributes section 3 of the spec lists (address, SSH user, inline key
material, key path, enforcement flag, engine-client handle), under the names `tunnel.go`
uses for those it touches. -/
structure Host where
  Address : String
  User : String
  SSHKey : String
  SSHKeyPath : String
  EnforceDockerVersion : Bool
  DClient : Option Client
  deriving DecidableEq, Repr

/-- The type `DialerFactory`: given a host, a dial function or an error. -/
abbrev DialerFactory := Host → Option Dialer × Option GoError

/-- One call that leaves the package, as recorded in the trace of a run. -/
inductive Event where
  /-- The call `logrus.Infof` with the formatted message. -/
  | Infof (msg : String)
  /-- The call `logrus.Debugf` with the formatted message. -/
  | Debugf (msg : String)
  /-- The call `logrus.Debugf("Docker Info found: %#v", info)`. -/
  | DebugfInfo (info : types.Info)
  /-- The call `logrus.Warnf` with the formatted message. -/
  | Warnf (msg : String)
  /-- The call `h.newHTTPClient(dialerFactory)`, the only use of the dialer factory. -/
  | newHTTPClient
  /-- The call `client.NewClient(host, version, httpClient, nil)`. -/
  | NewClient (host version : String)
  /-- The call `h.DClient.Info(ctx)`. -/
  | Info
  /-- The call `docker.IsSupportedDockerVersion(info, k8sVersion)`. -/
  | IsSupportedDockerVersion (info : types.Info) (k8sVersion : String)
  /-- The call `os.Getenv(name)`. -/
  | Getenv (name : String)
  /-- The call `ioutil.ReadFile(path)`. -/
  | ReadFile (path : String)
  /-- The call `ssh.ParsePrivateKey([]byte(keyBuff))`. -/
  | ParsePrivateKey (keyBuff : String)
  /-- The call `ssh.ParsePrivateKeyWithPassphrase([]byte(keyBuff), passphrase)`. -/
  | ParsePrivateKeyWithPassphrase (keyBuff passphrase : String)
  /-- The call `fmt.Printf` with the text written to standard output. -/
  | Printf (text : String)
  /-- The call `terminal.ReadPassword(fd)`. -/
  | ReadPassword (fd : Nat)
  deriving DecidableEq, Repr

/-! ## Formatting -/

/-- The constant `DockerAPIVersion`. -/
def DockerAPIVersion : String := "1.24"

/-- The constant `K8sVersion`. -/
def K8sVersion : String := "1.8"

/-- What `fmt` prints for a `[]string` under the verb `%v`: the elements separated by one
space, in square brackets. -/
def fmtStrings (xs : List String) : String :=
  "[" ++ " ".intercalate xs ++ "]"

/-- The message of line 31: `"Can't establish dialer connection: %v"`. -/
def dialerErrorMsg (err : GoError) : String :=
  "Can't establish dialer connection: " ++ err.Error

/-- The message of line 38: `"Can't initiate NewClient: %v"`. -/
def newClientErrorMsg (err : GoError) : String :=
  "Can't initiate NewClient: " ++ err.Error

/-- The message of line 42: `"Can't retrieve Docker Info: %v"`. -/
def infoErrorMsg (err : GoError) : String :=
  "Can't retrieve Docker Info: " ++ err.Error

/-- The message of line 47:
`"Error while determining supported Docker version [%s]: %v"`. -/
def lookupErrorMsg (serverVersion : String) (err : GoError) : String :=
  "Error while determining supported Docker version [" ++ serverVersion ++ "]: " ++ err.Error

/-- The message of lines 51 and 53:
`"Unsupported Docker version found [%s], supported versions are %v"`. -/
def unsupportedMsg (serverVersion : String) (supported : List String) : String :=
  "Unsupported Docker version found [" ++ serverVersion ++ "], supported versions are "
    ++ fmtStrings supported

/-! ## `TunnelUp` -/

/-- What `TunnelUp` calls outside `tunnel.go`. `newHTTPClient` and
`IsSupportedDockerVersion` are functions of this repository defined in other files,
`K8sDockerVersions` is the table `docker.K8sDockerVersions` (a Go map from release to
`[]string`, a missing key giving the empty slice); `NewClient` and `Info` belong to the
Docker client library. `Info` is a method of the handle, so it receives `h.DClient` as
stored, nil included. -/
structure DockerEnv where
  newHTTPClient : Host → DialerFactory → Option HTTPClient × Option GoError
  NewClient : String → String → Option HTTPClient → Option Client × Option GoError
  Info : Option Client → types.Info × Option GoError
  IsSupportedDockerVersion : types.Info → String → Bool × Option GoError
  K8sDockerVersions : String → List String

/-- The state after a call of `TunnelUp`: the host as the call leaves it, the returned
error, and the calls made. -/
structure TunnelUpResult where
  h : Host
  err : Option GoError
  trace : List Event
  deriving DecidableEq, Repr

/-- The method `(h *Host) TunnelUp(dialerFactory)`, lines 24-57. -/
def TunnelUp (env : DockerEnv) (h : Host) (dialerFactory : DialerFactory) : TunnelUpResult :=
  if h.DClient ≠ none then
    ⟨h, none, []⟩
  else
    let t1 := [Event.Infof ("[dialer] Setup tunnel for host [" ++ h.Address ++ "]"),
      Event.newHTTPClient]
    match env.newHTTPClient h dialerFactory with
    | (_, some err) => ⟨h, some ⟨dialerErrorMsg err⟩, t1⟩
    | (httpClient, none) =>
      let t2 := t1 ++ [Event.Debugf ("Connecting to Docker API for host [" ++ h.Address ++ "]"),
        Event.NewClient "unix:///var/run/docker.sock" DockerAPIVersion]
      match env.NewClient "unix:///var/run/docker.sock" DockerAPIVersion httpClient with
      | (dclient, some err) => ⟨{ h with DClient := dclient }, some ⟨newClientErrorMsg err⟩, t2⟩
      | (dclient, none) =>
        let h := { h with DClient := dclient }
        let t3 := t2 ++ [Event.Info]
        match env.Info h.DClient with
        | (_, some err) => ⟨h, some ⟨infoErrorMsg err⟩, t3⟩
        | (info, none) =>
          let t4 := t3 ++ [Event.DebugfInfo info, Event.IsSupportedDockerVersion info K8sVersion]
          match env.IsSupportedDockerVersion info K8sVersion with
          | (_, some err) => ⟨h, some ⟨lookupErrorMsg info.ServerVersion err⟩, t4⟩
          | (isvalid, none) =>
            if !isvalid && h.EnforceDockerVersion then
              ⟨h, some ⟨unsupportedMsg info.ServerVersion (env.K8sDockerVersions K8sVersion)⟩, t4⟩
            else if !isvalid then
              ⟨h, none, t4 ++ [Event.Warnf
                (unsupportedMsg info.ServerVersion (env.K8sDockerVersions K8sVersion))]⟩
            else
              ⟨h, none, t4⟩

/-- The warnings (`logrus.Warnf` messages) of a trace, in order. -/
def warnings : List Event → List String
  | [] => []
  | Event.Warnf msg :: t => msg :: warnings t
  | _ :: t => warnings t

/-! ## Path handling: `filepath.Clean` and `filepath.Join` (Unix)

The two library functions `privateKeyPath` calls, transcribed from the Go standard library.
They inspect the bytes `/` and `.` only, which are ASCII, so on a UTF-8 string the walk over
characters below visits the same separators and elements as the walk over bytes. -/

/-- The backtracking loop of `Clean`: `for out.w > dotdot && !isSep(out.index(out.w))`
decrements `out.w`; `buf` is the output written so far, the argument is `out.w`. -/
def cleanBacktrack (buf : List Char) (dotdot : Nat) : Nat → Nat
  | 0 => 0
  | w + 1 =>
    if w + 1 > dotdot ∧ buf.getD (w + 1) ' ' ≠ '/' then cleanBacktrack buf dotdot w else w + 1

/-- The main loop of `Clean`, `for r < n`: `rest` is `path[r:]`, `out` the output written so
far (`out.w` is its length). Each round consumes at least one byte of `rest`, so the first
argument, a bound on the number of rounds, is never exhausted when it starts at `len(path)`. -/
def cleanLoop (rooted : Bool) : Nat → List Char → List Char → Nat → List Char
  | 0, _, out, _ => out
  | _ + 1, [], out, _ => out
  | fuel + 1, c :: t, out, dotdot =>
    if c = '/' then
      -- empty path element
      cleanLoop rooted fuel t out dotdot
    else if c = '.' ∧ (t = [] ∨ t.head? = some '/') then
      -- . element
      cleanLoop rooted fuel t out dotdot
    else if c = '.' ∧ t.head? = some '.' ∧ (t.tail = [] ∨ t.tail.head? = some '/') then
      -- .. element: remove to last separator
      if out.length > dotdot then
        -- can backtrack
        cleanLoop rooted fuel t.tail
          (out.take (cleanBacktrack out dotdot (out.length - 1))) dotdot
      else if !rooted then
        -- cannot backtrack, but not rooted, so append .. element
        let out1 := (if out.length > 0 then out ++ ['/'] else out) ++ ['.', '.']
        cleanLoop rooted fuel t.tail out1 out1.length
      else
        cleanLoop rooted fuel t.tail out dotdot
    else
      -- real path element: add slash if needed, copy element
      let out1 :=
        if (rooted && out.length != 1) || (!rooted && out.length != 0) then out ++ ['/'] else out
      cleanLoop rooted fuel ((c :: t).dropWhile (fun x => x != '/'))
        (out1 ++ (c :: t).takeWhile (fun x => x != '/')) dotdot

/-- The function `filepath.Clean` on Unix (no volume name, `FromSlash` the identity). -/
def Clean (path : String) : String :=
  if path = "" then
    "."
  else
    let rooted : Bool := path.data.head? = some '/'
    let out :=
      if rooted then cleanLoop rooted path.data.length path.data.tail ['/'] 1
      else cleanLoop rooted path.data.length path.data [] 0
    -- Turn empty string into "."
    if out.length = 0 then "." else String.mk out

/-- The function `filepath.Join` on Unix: the elements from the first non-empty one on,
joined by `/` and cleaned; the empty string when every element is empty. -/
def Join : List String → String
  | [] => ""
  | e :: rest => if e ≠ "" then Clean ("/".intercalate (e :: rest)) else Join rest

/-! ## `privateKeyPath` and `checkEncryptedKey` -/

/-- How a Go call ends: it returns a value, or it panics. -/
inductive Outcome (α : Type) where
  | returned (a : α)
  | panicked (msg : String)
  deriving DecidableEq, Repr

/-- A run of a function: the calls made, in order, and how the run ended. -/
structure Run (α : Type) where
  trace : List Event
  outcome : Outcome α
  deriving DecidableEq, Repr

/-- What the key functions call outside `tunnel.go`: the process environment, the file
system, the SSH key parsers and the terminal. `ReadFile` returns the bytes read together
with the error, and so do the others, as in Go. -/
structure KeyEnv where
  Getenv : String → String
  ReadFile : String → String × Option GoError
  ParsePrivateKey : String → Option Signer × Option GoError
  ParsePrivateKeyWithPassphrase : String → String → Option Signer × Option GoError
  ReadPassword : Nat → String × Option GoError

/-- The function `strings.Contains(s, substr)`. -/
def stringsContains (s substr : String) : Bool :=
  s.data.tails.any (fun t => substr.data.isPrefixOf t)

/-- The function `privateKeyPath`, lines 112-118. The slice `sshKeyPath[:2]` panics when
the string has fewer than two bytes. Its two bytes equal `"~/"` exactly when the first two
characters are `~` and `/` (both are one-byte characters), and `sshKeyPath[2:]` is then the
string without these two characters. The error of `ioutil.ReadFile` is discarded. -/
def privateKeyPath (env : KeyEnv) (sshKeyPath : String) : Run String :=
  if sshKeyPath.utf8ByteSize < 2 then
    ⟨[], .panicked "runtime error: slice bounds out of range"⟩
  else if sshKeyPath.data.take 2 = ['~', '/'] then
    let sshKeyPath := Join [env.Getenv "HOME", String.mk (sshKeyPath.data.drop 2)]
    ⟨[Event.Getenv "HOME", Event.ReadFile sshKeyPath], .returned (env.ReadFile sshKeyPath).1⟩
  else
    ⟨[Event.ReadFile sshKeyPath], .returned (env.ReadFile sshKeyPath).1⟩

/-- The key text both parses of `checkEncryptedKey` are given (lines 83-87 and 100-104):
`sshKey` when `len(sshKey) > 0`, else `privateKeyPath(sshKeyPath)`. -/
def keyBuff (env : KeyEnv) (sshKey sshKeyPath : String) : Run String :=
  if sshKey.utf8ByteSize > 0 then ⟨[], .returned sshKey⟩ else privateKeyPath env sshKeyPath

/-- The function `checkEncryptedKey`, lines 79-110. `syscall.Stdin` is the descriptor 0.
The `err` of line 95 is declared by `:=` inside the `if` block, so it is a new variable of
that block: lines 97-107 test and return this inner variable, while the `err` that line 109
returns is the outer one, which still holds the error of the first parse. -/
def checkEncryptedKey (env : KeyEnv) (sshKey sshKeyPath : String) :
    Run (Option Signer × Option GoError) :=
  let t0 := [Event.Debugf "[ssh] Checking private key"]
  match keyBuff env sshKey sshKeyPath with
  | ⟨tp, .panicked msg⟩ => ⟨t0 ++ tp, .panicked msg⟩
  | ⟨tp, .returned buf⟩ =>
    let t1 := t0 ++ tp ++ [Event.ParsePrivateKey buf]
    match env.ParsePrivateKey buf with
    | (key, none) => ⟨t1, .returned (key, none)⟩
    | (key, some err) =>
      -- parse encrypted key
      if stringsContains err.Error "decode encrypted private keys" then
        let t2 := t1 ++ [Event.Printf "Passphrase for Private SSH Key: ", Event.ReadPassword 0,
          Event.Printf "\n"]
        match env.ReadPassword 0 with
        | (_, some errInner) => ⟨t2, .returned (none, some errInner)⟩
        | (passphrase, none) =>
          match keyBuff env sshKey sshKeyPath with
          | ⟨tq, .panicked msg⟩ => ⟨t2 ++ tq, .panicked msg⟩
          | ⟨tq, .returned buf2⟩ =>
            let t3 := t2 ++ tq ++ [Event.ParsePrivateKeyWithPassphrase buf2 passphrase]
            match env.ParsePrivateKeyWithPassphrase buf2 passphrase with
            | (_, some errInner) => ⟨t3, .returned (none, some errInner)⟩
            | (key2, none) => ⟨t3, .returned (key2, some err)⟩
      else
        ⟨t1, .returned (key, some err)⟩

/-- The paths handed to `ioutil.ReadFile` in a trace, in order. -/
def readPaths : List Event → List String
  | [] => []
  | Event.ReadFile path :: t => path :: readPaths t
  | _ :: t => readPaths t

/-- The number of passphrase prompts (`terminal.ReadPassword` calls) in a trace. -/
def prompts : List Event → Nat
  | [] => 0
  | Event.ReadPassword _ :: t => prompts t + 1
  | _ :: t => prompts t

/-! ## Concrete environments

Small, fully explicit environments on which the definitions above are evaluated. -/

/-- A Docker side on which dialing and client construction succeed (client number 7), the
daemon reports version `1.11.0`, and release `1.8` supports `1.12.0` and `1.13.0`; the
arguments fix the error of the info query, the error of the version lookup and its verdict. -/
def dockerEnvExample (infoErr lookupErr : Option GoError) (isvalid : Bool) : DockerEnv where
  newHTTPClient := fun _ _ => (some ⟨1⟩, none)
  NewClient := fun _ _ _ => (some ⟨7⟩, none)
  Info := fun _ => (⟨"1.11.0"⟩, infoErr)
  IsSupportedDockerVersion := fun _ _ => (isvalid, lookupErr)
  K8sDockerVersions := fun k => if k = "1.8" then ["1.12.0", "1.13.0"] else []

/-- A Docker side on which building the HTTP client fails. -/
def dockerEnvNoDialer : DockerEnv where
  newHTTPClient := fun _ _ => (none, some ⟨"ssh: handshake failed"⟩)
  NewClient := fun _ _ _ => (some ⟨7⟩, none)
  Info := fun _ => (⟨"1.11.0"⟩, none)
  IsSupportedDockerVersion := fun _ _ => (true, none)
  K8sDockerVersions := fun k => if k = "1.8" then ["1.12.0", "1.13.0"] else []

/-- A host with the given enforcement flag and client handle. -/
def hostExample (enforce : Bool) (dclient : Option Client) : Host where
  Address := "10.0.0.1"
  User := "ubuntu"
  SSHKey := ""
  SSHKeyPath := "~/.ssh/id_rsa"
  EnforceDockerVersion := enforce
  DClient := dclient

/-- A dialer factory that always yields dial function number 0. -/
def dialerFactoryExample : DialerFactory := fun _ => (some ⟨0⟩, none)

/-- A key side with the given `HOME`. The files `k` (relative to the working directory)
and `/home/u/.ssh/id_rsa` exist, every other read fails with no bytes. The text
`ENCRYPTED` is a key under the passphrase `secret`, the text `PLAIN` an unencrypted key;
the argument fixes what the terminal returns for the passphrase. -/
def keyEnvExample (home : String) (typed : String × Option GoError) : KeyEnv where
  Getenv := fun name => if name = "HOME" then home else ""
  ReadFile := fun path =>
    if path = "k" then ("PLAIN", none)
    else if path = "/home/u/.ssh/id_rsa" then ("ENCRYPTED", none)
    else ("", some ⟨"open " ++ path ++ ": no such file or directory"⟩)
  ParsePrivateKey := fun buf =>
    if buf = "PLAIN" then (some ⟨1⟩, none)
    else if buf = "ENCRYPTED" then (none, some ⟨"ssh: cannot decode encrypted private keys"⟩)
    else (none, some ⟨"ssh: no key found"⟩)
  ParsePrivateKeyWithPassphrase := fun buf passphrase =>
    if buf = "ENCRYPTED" ∧ passphrase = "secret" then (some ⟨2⟩, none)
    else (none, some ⟨"x509: decryption password incorrect"⟩)
  ReadPassword := fun _ => typed

/-! ## Auxiliary lemmas -/

theorem cleanLoop_fuel (rooted : Bool) :
    ∀ (f1 f2 : Nat) (rest out : List Char) (dotdot : Nat),
      rest.length ≤ f1 → rest.length ≤ f2 →
      cleanLoop rooted f1 rest out dotdot = cleanLoop rooted f2 rest out dotdot := by
  intro f1
  induction f1 with
  | zero =>
    intro f2 rest out dotdot h1 _
    have : rest = [] := List.length_eq_zero.mp (Nat.le_zero.mp h1)
    subst this
    cases f2 <;> simp [cleanLoop]
  | succ n ih =>
    intro f2 rest out dotdot h1 h2
    cases rest with
    | nil => cases f2 <;> simp [cleanLoop]
    | cons c t =>
      cases f2 with
      | zero => simp at h2
      | succ m =>
        simp only [List.length_cons, Nat.add_le_add_iff_right] at h1 h2
        have ht : t.tail.length ≤ t.length := by simp
        have hd : c ≠ '/' → ((c :: t).dropWhile (fun x => x != '/')).length ≤ t.length := by
          intro hc
          have hlen := (List.dropWhile_sublist (l := t) (fun x => x != '/')).length_le
          simpa [List.dropWhile_cons, hc] using hlen
        simp only [cleanLoop]
        split_ifs with hs
        all_goals first
          | rfl
          | exact ih _ _ _ _ (by omega) (by omega)
          | exact ih _ _ _ _ (le_trans (hd hs) h1) (le_trans (hd hs) h2)

/-- The bound `len(path)` that `Clean` gives its loop is never exhausted: the loop ends by
consuming the whole path, and any larger bound gives the same output. -/
theorem cleanLoop_fuel_enough (rooted : Bool) (rest out : List Char) (dotdot k : Nat) :
    cleanLoop rooted (rest.length + k) rest out dotdot
      = cleanLoop rooted rest.length rest out dotdot :=
  cleanLoop_fuel rooted _ _ rest out dotdot (by omega) (le_refl _)

theorem utf8ByteSize_data (s : String) : s.utf8ByteSize = String.utf8Len s.data := by
  cases s; rfl

theorem utf8ByteSize_pos_of_ne (s : String) (h : s ≠ "") : 0 < s.utf8ByteSize := by
  rw [utf8ByteSize_data]
  cases hs : s.data with
  | nil => exact absurd (String.ext hs) h
  | cons c t =>
    rw [String.utf8Len_cons]
    have := c.utf8Size_pos
    omega

/-- On a path that begins with the shorthand, `privateKeyPath` asks for `HOME` and reads
the joined path. -/
theorem privateKeyPath_tilde (env : KeyEnv) (R : String) :
    privateKeyPath env ("~/" ++ R)
      = ⟨[Event.Getenv "HOME", Event.ReadFile (Join [env.Getenv "HOME", R])],
          .returned (env.ReadFile (Join [env.Getenv "HOME", R])).1⟩ := by
  have h2 : ¬ ("~/" ++ R).utf8ByteSize < 2 := by
    rw [utf8ByteSize_data, String.data_append, String.utf8Len_append]
    have : String.utf8Len "~/".data = 2 := by decide
    omega
  have h3 : ("~/" ++ R).data.take 2 = ['~', '/'] := by
    simp [String.data_append]
  have h4 : String.mk (("~/" ++ R).data.drop 2) = R := by
    simp [String.data_append]
  simp only [privateKeyPath, h2, h3, h4, if_true, if_false]

/-- On a path of two bytes or more that does not begin with the shorthand,
`privateKeyPath` reads the path as given. -/
theorem privateKeyPath_plain (env : KeyEnv) (p : String) (h2 : 2 ≤ p.utf8ByteSize)
    (h3 : p.data.take 2 ≠ ['~', '/']) :
    privateKeyPath env p = ⟨[Event.ReadFile p], .returned (env.ReadFile p).1⟩ := by
  have : ¬ p.utf8ByteSize < 2 := by omega
  simp only [privateKeyPath, this, h3, if_false]

/-- The guard of line 25: with a non-empty handle `TunnelUp` returns at once. -/
theorem tunnelUp_of_bound (env : DockerEnv) (h : Host) (dialerFactory : DialerFactory)
    (hb : h.DClient ≠ none) :
    TunnelUp env h dialerFactory = ⟨h, none, []⟩ := by
  simp [TunnelUp, hb]

theorem prompts_append (a b : List Event) : prompts (a ++ b) = prompts a + prompts b := by
  induction a with
  | nil => simp [prompts]
  | cons e t ih =>
    cases e <;> simp [prompts, ih]
    omega

/-- Resolving the key text never prompts. -/
theorem prompts_keyBuff (env : KeyEnv) (sshKey sshKeyPath : String) :
    prompts (keyBuff env sshKey sshKeyPath).trace = 0 := by
  unfold keyBuff privateKeyPath
  split_ifs <;> simp [prompts]

/-! ## `TunnelUp`: the guard and the failure stages -/

/-- C1. Idempotence of `TunnelUp`: on a host whose client handle is already non-empty, and
for every environment and dialer factory, the call returns the nil error, leaves the host
as it was, and makes no call at all (the trace is empty), so neither the dialer factory, the
client constructor, the info query nor the version gate is invoked. -/
theorem tunnelUp_bound_noop (env : DockerEnv) (h : Host) (dialerFactory : DialerFactory)
    (hb : h.DClient ≠ none) :
    TunnelUp env h dialerFactory = ⟨h, none, []⟩ := by
  simp [TunnelUp, hb]

theorem tunnelUp_bound_noop_witness :
    (hostExample true (some ⟨3⟩)).DClient ≠ none ∧
      TunnelUp dockerEnvNoDialer (hostExample true (some ⟨3⟩)) dialerFactoryExample
        = ⟨hostExample true (some ⟨3⟩), none, []⟩ :=
  ⟨by decide, tunnelUp_bound_noop _ _ _ (by decide)⟩

/-- C2. Dialer failure propagation: on a host with an empty handle, when building the HTTP
client fails with error `e`, `TunnelUp` returns the error whose text is
`Can't establish dialer connection: ` followed by the text of `e`, the host is unchanged and
its handle still empty, and the only calls made are the log line and the HTTP client build:
no client construction, info query or version gate. -/
theorem tunnelUp_dialer_failure (env : DockerEnv) (h : Host) (dialerFactory : DialerFactory)
    (httpClient : Option HTTPClient) (e : GoError)
    (h0 : h.DClient = none)
    (hd : env.newHTTPClient h dialerFactory = (httpClient, some e)) :
    (TunnelUp env h dialerFactory).err
        = some ⟨"Can't establish dialer connection: " ++ e.Error⟩ ∧
      (TunnelUp env h dialerFactory).h = h ∧
      (TunnelUp env h dialerFactory).h.DClient = none ∧
      (TunnelUp env h dialerFactory).trace
        = [Event.Infof ("[dialer] Setup tunnel for host [" ++ h.Address ++ "]"),
           Event.newHTTPClient] := by
  simp [TunnelUp, h0, hd, dialerErrorMsg]

theorem tunnelUp_dialer_failure_witness :
    (TunnelUp dockerEnvNoDialer (hostExample true none) dialerFactoryExample).err
        = some ⟨"Can't establish dialer connection: ssh: handshake failed"⟩ ∧
      (TunnelUp dockerEnvNoDialer (hostExample true none) dialerFactoryExample).h.DClient
        = none :=
  have h := tunnelUp_dialer_failure dockerEnvNoDialer (hostExample true none)
    dialerFactoryExample none ⟨"ssh: handshake failed"⟩ rfl rfl
  ⟨h.1.trans (by decide), h.2.2.1⟩

/-- C3, as the code has it. On a host with an empty handle, when the HTTP client is built,
the client constructor returns `dclient` with no error and the info query then fails with
`e`, `TunnelUp` returns the info-stage error `Can't retrieve Docker Info: ` followed by the
text of `e`, and the host's handle holds `dclient`: the handle is written from the
constructor's result before the info query is made, whatever the query returns. -/
theorem tunnelUp_info_failure (env : DockerEnv) (h : Host) (dialerFactory : DialerFactory)
    (httpClient : Option HTTPClient) (dclient : Option Client) (info : types.Info) (e : GoError)
    (h0 : h.DClient = none)
    (hd : env.newHTTPClient h dialerFactory = (httpClient, none))
    (hn : env.NewClient "unix:///var/run/docker.sock" "1.24" httpClient = (dclient, none))
    (hi : env.Info dclient = (info, some e)) :
    (TunnelUp env h dialerFactory).err = some ⟨"Can't retrieve Docker Info: " ++ e.Error⟩ ∧
      (TunnelUp env h dialerFactory).h = { h with DClient := dclient } ∧
      (TunnelUp env h dialerFactory).h.DClient = dclient := by
  simp [TunnelUp, h0, hd, DockerAPIVersion, hn, hi, infoErrorMsg]

theorem tunnelUp_info_failure_witness :
    (TunnelUp (dockerEnvExample (some ⟨"connection refused"⟩) none true)
        (hostExample false none) dialerFactoryExample).err
        = some ⟨"Can't retrieve Docker Info: connection refused"⟩ ∧
      (TunnelUp (dockerEnvExample (some ⟨"connection refused"⟩) none true)
        (hostExample false none) dialerFactoryExample).h.DClient = some ⟨7⟩ :=
  have h := tunnelUp_info_failure (dockerEnvExample (some ⟨"connection refused"⟩) none true)
    (hostExample false none) dialerFactoryExample (some ⟨1⟩) (some ⟨7⟩) ⟨"1.11.0"⟩
    ⟨"connection refused"⟩ rfl rfl rfl rfl
  ⟨h.1.trans (by decide), h.2.2⟩

/-- C3 as stated fails: the host starts with an empty handle, the info query fails and
`TunnelUp` returns the info-stage error, yet the handle is not empty after the call; it
holds client 7, which the constructor returned. -/
theorem tunnelUp_info_failure_handle_set :
    (hostExample false none).DClient = none ∧
      ((dockerEnvExample (some ⟨"connection refused"⟩) none true).Info (some ⟨7⟩)).2
        = some ⟨"connection refused"⟩ ∧
      (TunnelUp (dockerEnvExample (some ⟨"connection refused"⟩) none true)
        (hostExample false none) dialerFactoryExample).err
        = some ⟨"Can't retrieve Docker Info: connection refused"⟩ ∧
      (TunnelUp (dockerEnvExample (some ⟨"connection refused"⟩) none true)
        (hostExample false none) dialerFactoryExample).h.DClient = some ⟨7⟩ ∧
      (TunnelUp (dockerEnvExample (some ⟨"connection refused"⟩) none true)
        (hostExample false none) dialerFactoryExample).h.DClient ≠ none := by
  decide

/-! ## `TunnelUp`: the version gate -/

/-- C4. Version gate, strict mode: on a host with an empty handle and `EnforceDockerVersion`
set, when the HTTP client build, the client constructor and the info query return no error
and the version lookup answers `false` with no error, `TunnelUp` returns the error whose
text is `Unsupported Docker version found [<ServerVersion>], supported versions are <set>`,
where the set is the entry of `K8sDockerVersions` under the key `1.8`, printed as Go prints
a slice of strings. -/
theorem tunnelUp_strict_unsupported (env : DockerEnv) (h : Host)
    (dialerFactory : DialerFactory) (httpClient : Option HTTPClient)
    (dclient : Option Client) (info : types.Info)
    (h0 : h.DClient = none) (he : h.EnforceDockerVersion = true)
    (hd : env.newHTTPClient h dialerFactory = (httpClient, none))
    (hn : env.NewClient "unix:///var/run/docker.sock" "1.24" httpClient = (dclient, none))
    (hi : env.Info dclient = (info, none))
    (hv : env.IsSupportedDockerVersion info "1.8" = (false, none)) :
    (TunnelUp env h dialerFactory).err
      = some ⟨"Unsupported Docker version found [" ++ info.ServerVersion
          ++ "], supported versions are " ++ fmtStrings (env.K8sDockerVersions "1.8")⟩ := by
  simp [TunnelUp, h0, hd, DockerAPIVersion, K8sVersion, hn, hi, hv, he, unsupportedMsg]

theorem tunnelUp_strict_unsupported_witness :
    (TunnelUp (dockerEnvExample none none false) (hostExample true none)
        dialerFactoryExample).err
      = some ⟨"Unsupported Docker version found [1.11.0], supported versions are [1.12.0 1.13.0]"⟩ :=
  (tunnelUp_strict_unsupported (dockerEnvExample none none false) (hostExample true none)
    dialerFactoryExample (some ⟨1⟩) (some ⟨7⟩) ⟨"1.11.0"⟩ rfl rfl rfl rfl rfl rfl).trans
    (by decide)

/-- C5. Version gate, advisory mode: on a host with an empty handle and
`EnforceDockerVersion` unset, when the HTTP client is built, the constructor returns client
`c` with no error, the info query returns no error and the version lookup answers `false`
with no error, `TunnelUp` returns the nil error, the host's handle is bound to `c`, and
exactly one warning is logged, whose text is the message strict mode returns as its error. -/
theorem tunnelUp_advisory_unsupported (env : DockerEnv) (h : Host)
    (dialerFactory : DialerFactory) (httpClient : Option HTTPClient)
    (c : Client) (info : types.Info)
    (h0 : h.DClient = none) (he : h.EnforceDockerVersion = false)
    (hd : env.newHTTPClient h dialerFactory = (httpClient, none))
    (hn : env.NewClient "unix:///var/run/docker.sock" "1.24" httpClient = (some c, none))
    (hi : env.Info (some c) = (info, none))
    (hv : env.IsSupportedDockerVersion info "1.8" = (false, none)) :
    (TunnelUp env h dialerFactory).err = none ∧
      (TunnelUp env h dialerFactory).h.DClient = some c ∧
      warnings (TunnelUp env h dialerFactory).trace
        = ["Unsupported Docker version found [" ++ info.ServerVersion
            ++ "], supported versions are " ++ fmtStrings (env.K8sDockerVersions "1.8")] := by
  simp [TunnelUp, h0, hd, DockerAPIVersion, K8sVersion, hn, hi, hv, he, unsupportedMsg,
    warnings]

theorem tunnelUp_advisory_unsupported_witness :
    (TunnelUp (dockerEnvExample none none false) (hostExample false none)
        dialerFactoryExample).err = none ∧
      (TunnelUp (dockerEnvExample none none false) (hostExample false none)
        dialerFactoryExample).h.DClient = some ⟨7⟩ ∧
      warnings (TunnelUp (dockerEnvExample none none false) (hostExample false none)
        dialerFactoryExample).trace
        = ["Unsupported Docker version found [1.11.0], supported versions are [1.12.0 1.13.0]"] :=
  have h := tunnelUp_advisory_unsupported (dockerEnvExample none none false)
    (hostExample false none) dialerFactoryExample (some ⟨1⟩) ⟨7⟩ ⟨"1.11.0"⟩
    rfl rfl rfl rfl rfl rfl
  ⟨h.1, h.2.1, h.2.2.trans (by decide)⟩

/-- C6. Version lookup failure is always fatal: on a host with an empty handle and either
value of the enforcement flag, when the HTTP client build, the constructor and the info
query return no error and the version lookup returns the error `e`, `TunnelUp` returns the
error whose text is `Error while determining supported Docker version [<version>]: <e>`,
no warning is logged, and that text differs from the unsupported-version message for every
choice of version strings, lookup error and supported set. -/
theorem tunnelUp_lookup_failure (env : DockerEnv) (h : Host) (dialerFactory : DialerFactory)
    (httpClient : Option HTTPClient) (dclient : Option Client) (info : types.Info)
    (isvalid : Bool) (e : GoError)
    (h0 : h.DClient = none)
    (hd : env.newHTTPClient h dialerFactory = (httpClient, none))
    (hn : env.NewClient "unix:///var/run/docker.sock" "1.24" httpClient = (dclient, none))
    (hi : env.Info dclient = (info, none))
    (hv : env.IsSupportedDockerVersion info "1.8" = (isvalid, some e)) :
    (TunnelUp env h dialerFactory).err
        = some ⟨"Error while determining supported Docker version [" ++ info.ServerVersion
            ++ "]: " ++ e.Error⟩ ∧
      warnings (TunnelUp env h dialerFactory).trace = [] ∧
      ∀ (v1 v2 : String) (e1 : GoError) (supported : List String),
        "Error while determining supported Docker version [" ++ v1 ++ "]: " ++ e1.Error
          ≠ "Unsupported Docker version found [" ++ v2 ++ "], supported versions are "
              ++ fmtStrings supported := by
  refine ⟨?_, ?_, ?_⟩
  · simp [TunnelUp, h0, hd, DockerAPIVersion, K8sVersion, hn, hi, hv, lookupErrorMsg]
  · simp [TunnelUp, h0, hd, DockerAPIVersion, K8sVersion, hn, hi, hv, warnings]
  · intro v1 v2 e1 supported heq
    have hdata := congrArg String.data heq
    simp [String.data_append] at hdata

theorem tunnelUp_lookup_failure_witness :
    (TunnelUp (dockerEnvExample none (some ⟨"invalid semantic version"⟩) false)
        (hostExample true none) dialerFactoryExample).err
        = some ⟨"Error while determining supported Docker version [1.11.0]: invalid semantic version"⟩ ∧
      (TunnelUp (dockerEnvExample none (some ⟨"invalid semantic version"⟩) false)
        (hostExample false none) dialerFactoryExample).err
        = some ⟨"Error while determining supported Docker version [1.11.0]: invalid semantic version"⟩ ∧
      warnings (TunnelUp (dockerEnvExample none (some ⟨"invalid semantic version"⟩) false)
        (hostExample false none) dialerFactoryExample).trace = [] :=
  have hs := tunnelUp_lookup_failure
    (dockerEnvExample none (some ⟨"invalid semantic version"⟩) false) (hostExample true none)
    dialerFactoryExample (some ⟨1⟩) (some ⟨7⟩) ⟨"1.11.0"⟩ false ⟨"invalid semantic version"⟩
    rfl rfl rfl rfl rfl
  have ha := tunnelUp_lookup_failure
    (dockerEnvExample none (some ⟨"invalid semantic version"⟩) false) (hostExample false none)
    dialerFactoryExample (some ⟨1⟩) (some ⟨7⟩) ⟨"1.11.0"⟩ false ⟨"invalid semantic version"⟩
    rfl rfl rfl rfl rfl
  ⟨hs.1.trans (by decide), ha.1.trans (by decide), ha.2.1⟩

/-- C10. Failure masking on retry: on a host with an empty handle, when the HTTP client is
built and the constructor returns client `c` with no error, and the call then fails at the
info query, at the version lookup, or at the strict-mode unsupported-version check,
`TunnelUp` returns an error and the host's handle is `c` after the failed call; the next
`TunnelUp` on that host, in any environment and with any dialer factory, returns the nil
error, leaves the host as it is and makes no call at all. -/
theorem tunnelUp_failure_masked_on_retry (env : DockerEnv) (h : Host)
    (dialerFactory : DialerFactory) (httpClient : Option HTTPClient) (c : Client)
    (info : types.Info) (infoErr lookupErr : Option GoError) (isvalid : Bool)
    (h0 : h.DClient = none)
    (hd : env.newHTTPClient h dialerFactory = (httpClient, none))
    (hn : env.NewClient "unix:///var/run/docker.sock" "1.24" httpClient = (some c, none))
    (hi : env.Info (some c) = (info, infoErr))
    (hv : env.IsSupportedDockerVersion info "1.8" = (isvalid, lookupErr))
    (hfail : infoErr ≠ none ∨ lookupErr ≠ none ∨
      (isvalid = false ∧ h.EnforceDockerVersion = true)) :
    (TunnelUp env h dialerFactory).err ≠ none ∧
      (TunnelUp env h dialerFactory).h.DClient = some c ∧
      ∀ (env2 : DockerEnv) (dialerFactory2 : DialerFactory),
        TunnelUp env2 (TunnelUp env h dialerFactory).h dialerFactory2
          = ⟨(TunnelUp env h dialerFactory).h, none, []⟩ := by
  have hc : (TunnelUp env h dialerFactory).h.DClient = some c := by
    cases infoErr <;> cases lookupErr <;> cases isvalid <;>
      cases he : h.EnforceDockerVersion <;>
      simp [TunnelUp, h0, hd, DockerAPIVersion, K8sVersion, hn, hi, hv, he]
  refine ⟨?_, hc, ?_⟩
  · cases infoErr <;> cases lookupErr <;> cases isvalid <;>
      cases he : h.EnforceDockerVersion <;>
      simp [TunnelUp, h0, hd, DockerAPIVersion, K8sVersion, hn, hi, hv, he] <;>
      simp [he] at hfail
  · intro env2 dialerFactory2
    exact tunnelUp_of_bound env2 _ dialerFactory2 (by simp [hc])

theorem tunnelUp_failure_masked_on_retry_witness :
    (TunnelUp (dockerEnvExample none none false) (hostExample true none)
        dialerFactoryExample).err ≠ none ∧
      TunnelUp (dockerEnvExample none none false)
          (TunnelUp (dockerEnvExample none none false) (hostExample true none)
            dialerFactoryExample).h dialerFactoryExample
        = ⟨(TunnelUp (dockerEnvExample none none false) (hostExample true none)
            dialerFactoryExample).h, none, []⟩ :=
  have h := tunnelUp_failure_masked_on_retry (dockerEnvExample none none false)
    (hostExample true none) dialerFactoryExample (some ⟨1⟩) ⟨7⟩ ⟨"1.11.0"⟩ none none false
    rfl rfl rfl rfl rfl (Or.inr (Or.inr ⟨rfl, rfl⟩))
  ⟨h.1, h.2.2 _ _⟩

/-! ## `privateKeyPath` -/

/-- C7, as the code has it. With `H` the value of `HOME`, `privateKeyPath("~/" + R)` asks
for `HOME`, reads the path `filepath.Join(H, R)` and returns what was read. When `H` is not
empty, `H + "/" + R` is already in cleaned form (`filepath.Clean` leaves it unchanged) and
does not itself begin with `~/`, that path is `H + "/" + R`, and `privateKeyPath` applied to
`H + "/" + R` reads the same path and ends the same way. -/
theorem privateKeyPath_expansion (env : KeyEnv) (H R : String)
    (hH : env.Getenv "HOME" = H) :
    privateKeyPath env ("~/" ++ R)
        = ⟨[Event.Getenv "HOME", Event.ReadFile (Join [H, R])],
            .returned (env.ReadFile (Join [H, R])).1⟩ ∧
      (H ≠ "" → Clean (H ++ "/" ++ R) = H ++ "/" ++ R →
        (H ++ "/" ++ R).data.take 2 ≠ ['~', '/'] →
        readPaths (privateKeyPath env ("~/" ++ R)).trace = [H ++ "/" ++ R] ∧
        readPaths (privateKeyPath env (H ++ "/" ++ R)).trace = [H ++ "/" ++ R] ∧
        (privateKeyPath env ("~/" ++ R)).outcome
          = (privateKeyPath env (H ++ "/" ++ R)).outcome) := by
  refine ⟨by rw [privateKeyPath_tilde, hH], ?_⟩
  intro hne hclean htilde
  have hJ : Join [H, R] = H ++ "/" ++ R := by
    simp only [Join, hne, ne_eq, not_false_eq_true, if_true]
    have : "/".intercalate [H, R] = H ++ "/" ++ R := by
      simp [String.intercalate, String.intercalate.go]
    rw [this, hclean]
  have h2 : 2 ≤ (H ++ "/" ++ R).utf8ByteSize := by
    have := utf8ByteSize_pos_of_ne H hne
    rw [utf8ByteSize_data] at this ⊢
    rw [String.data_append, String.data_append, String.utf8Len_append, String.utf8Len_append]
    have : String.utf8Len "/".data = 1 := by decide
    omega
  rw [privateKeyPath_tilde, hH, hJ, privateKeyPath_plain env _ h2 htilde]
  simp [readPaths]

theorem privateKeyPath_expansion_witness :
    privateKeyPath (keyEnvExample "/home/u" ("secret", none)) ("~/" ++ ".ssh/id_rsa")
        = ⟨[Event.Getenv "HOME", Event.ReadFile (Join ["/home/u", ".ssh/id_rsa"])],
            .returned ((keyEnvExample "/home/u" ("secret", none)).ReadFile
              (Join ["/home/u", ".ssh/id_rsa"])).1⟩ ∧
      readPaths (privateKeyPath (keyEnvExample "/home/u" ("secret", none))
          ("~/" ++ ".ssh/id_rsa")).trace = ["/home/u" ++ "/" ++ ".ssh/id_rsa"] ∧
      readPaths (privateKeyPath (keyEnvExample "/home/u" ("secret", none))
          ("/home/u" ++ "/" ++ ".ssh/id_rsa")).trace = ["/home/u" ++ "/" ++ ".ssh/id_rsa"] ∧
      (privateKeyPath (keyEnvExample "/home/u" ("secret", none))
          ("~/" ++ ".ssh/id_rsa")).outcome
        = (privateKeyPath (keyEnvExample "/home/u" ("secret", none))
          ("/home/u" ++ "/" ++ ".ssh/id_rsa")).outcome :=
  have h := privateKeyPath_expansion (keyEnvExample "/home/u" ("secret", none))
    "/home/u" ".ssh/id_rsa" rfl
  ⟨h.1, h.2 (by decide) (by decide) (by decide)⟩

/-- C7 as stated fails for the empty home directory: with `HOME` empty and `R = "k"`,
`privateKeyPath("~/k")` reads the relative path `k` and returns that file's content, while
`privateKeyPath` on the explicit path `"" + "/" + "k"` reads the absolute path `/k`, which
does not exist here, and returns the empty string. -/
theorem privateKeyPath_empty_home_differs :
    (keyEnvExample "" ("secret", none)).Getenv "HOME" = "" ∧
      privateKeyPath (keyEnvExample "" ("secret", none)) ("~/" ++ "k")
        = ⟨[Event.Getenv "HOME", Event.ReadFile "k"], .returned "PLAIN"⟩ ∧
      privateKeyPath (keyEnvExample "" ("secret", none)) ("" ++ "/" ++ "k")
        = ⟨[Event.ReadFile "/k"], .returned ""⟩ ∧
      (privateKeyPath (keyEnvExample "" ("secret", none)) ("~/" ++ "k")).outcome
        ≠ (privateKeyPath (keyEnvExample "" ("secret", none)) ("" ++ "/" ++ "k")).outcome := by
  decide

/-- A home directory with a trailing slash: `privateKeyPath("~/k")` reads the cleaned path
`/home/u/k`, while the explicit path `/home/u/` + `/` + `k` is read as written, with its
doubled separator. -/
theorem privateKeyPath_trailing_slash_paths :
    readPaths (privateKeyPath (keyEnvExample "/home/u/" ("secret", none))
        ("~/" ++ "k")).trace = ["/home/u/k"] ∧
      readPaths (privateKeyPath (keyEnvExample "/home/u/" ("secret", none))
        ("/home/u/" ++ "/" ++ "k")).trace = ["/home/u//k"] := by
  decide

/-- A home directory that itself begins with the shorthand: the explicit path is expanded
once more, so the two calls read different paths. -/
theorem privateKeyPath_tilde_home_paths :
    readPaths (privateKeyPath (keyEnvExample "~/x" ("secret", none))
        ("~/" ++ "k")).trace = ["~/x/k"] ∧
      readPaths (privateKeyPath (keyEnvExample "~/x" ("secret", none))
        ("~/x" ++ "/" ++ "k")).trace = ["~/x/x/k"] := by
  decide

/-- C8, what the code does: on a key path of fewer than two bytes (the empty string, a
one-character ASCII path) the slice `sshKeyPath[:2]` is out of range, so `privateKeyPath`
panics before any file is read, and `checkEncryptedKey` with empty inline key material
panics with it instead of returning an error value. -/
theorem privateKeyPath_short_panics (env : KeyEnv) (sshKeyPath : String)
    (hlen : sshKeyPath.utf8ByteSize < 2) :
    privateKeyPath env sshKeyPath
        = ⟨[], .panicked "runtime error: slice bounds out of range"⟩ ∧
      (checkEncryptedKey env "" sshKeyPath).outcome
        = .panicked "runtime error: slice bounds out of range" := by
  have h0 : ¬ "".utf8ByteSize > 0 := by decide
  simp [checkEncryptedKey, keyBuff, privateKeyPath, hlen, h0]

theorem privateKeyPath_short_panics_witness :
    privateKeyPath (keyEnvExample "/home/u" ("secret", none)) ""
        = ⟨[], .panicked "runtime error: slice bounds out of range"⟩ ∧
      (checkEncryptedKey (keyEnvExample "/home/u" ("secret", none)) "" "").outcome
        = .panicked "runtime error: slice bounds out of range" ∧
      (checkEncryptedKey (keyEnvExample "/home/u" ("secret", none)) "" "k").outcome
        = .panicked "runtime error: slice bounds out of range" :=
  have h := privateKeyPath_short_panics (keyEnvExample "/home/u" ("secret", none)) ""
    (by decide)
  ⟨h.1, h.2,
    (privateKeyPath_short_panics (keyEnvExample "/home/u" ("secret", none)) "k"
      (by decide)).2⟩

/-- On a key path of two bytes or more `privateKeyPath` returns, whatever the file system
answers; when the read fails with no bytes the content returned is empty. -/
theorem privateKeyPath_long_returns (env : KeyEnv) (sshKeyPath : String)
    (hlen : 2 ≤ sshKeyPath.utf8ByteSize) :
    (∃ content, (privateKeyPath env sshKeyPath).outcome = .returned content) ∧
      ((∀ path, (env.ReadFile path).1 = "") →
        (privateKeyPath env sshKeyPath).outcome = .returned "") := by
  have : ¬ sshKeyPath.utf8ByteSize < 2 := by omega
  unfold privateKeyPath
  split_ifs
  · exact ⟨⟨_, rfl⟩, fun hall => by simp [hall]⟩
  · exact ⟨⟨_, rfl⟩, fun hall => by simp [hall]⟩

theorem privateKeyPath_long_returns_witness :
    ∃ content, (privateKeyPath (keyEnvExample "/home/u" ("secret", none))
      "/no/such/key").outcome = .returned content :=
  (privateKeyPath_long_returns (keyEnvExample "/home/u" ("secret", none)) "/no/such/key"
    (by decide)).1

/-! ## `checkEncryptedKey` -/

/-- C9, what the code does on the recovery path: when the first parse fails with an error
`e` whose text contains `decode encrypted private keys`, the passphrase is read with no
error and the second parse returns a signer with no error, exactly one prompt is issued and
`checkEncryptedKey` returns that signer together with `e`, the error of the first parse,
not with the nil error. -/
theorem checkEncryptedKey_decrypted (env : KeyEnv)
    (sshKey sshKeyPath buf passphrase : String) (tp : List Event) (key : Option Signer)
    (e : GoError) (signer : Signer)
    (hb : keyBuff env sshKey sshKeyPath = ⟨tp, .returned buf⟩)
    (h1 : env.ParsePrivateKey buf = (key, some e))
    (hc : stringsContains e.Error "decode encrypted private keys" = true)
    (hr : env.ReadPassword 0 = (passphrase, none))
    (h2 : env.ParsePrivateKeyWithPassphrase buf passphrase = (some signer, none)) :
    (checkEncryptedKey env sshKey sshKeyPath).outcome = .returned (some signer, some e) ∧
      prompts (checkEncryptedKey env sshKey sshKeyPath).trace = 1 := by
  have hp : prompts tp = 0 := by
    have := prompts_keyBuff env sshKey sshKeyPath
    rwa [hb] at this
  simp [checkEncryptedKey, hb, h1, hc, hr, h2, prompts, prompts_append, hp]

theorem checkEncryptedKey_decrypted_witness :
    (checkEncryptedKey (keyEnvExample "/home/u" ("secret", none)) "ENCRYPTED" "").outcome
        = .returned (some ⟨2⟩, some ⟨"ssh: cannot decode encrypted private keys"⟩) ∧
      prompts (checkEncryptedKey (keyEnvExample "/home/u" ("secret", none))
        "ENCRYPTED" "").trace = 1 :=
  checkEncryptedKey_decrypted (keyEnvExample "/home/u" ("secret", none)) "ENCRYPTED" ""
    "ENCRYPTED" "secret" [] none ⟨"ssh: cannot decode encrypted private keys"⟩ ⟨2⟩
    (by decide) (by decide) (by decide) (by decide) (by decide)

/-- When the first parse returns no error, `checkEncryptedKey` returns its signer with the
nil error and never prompts. -/
theorem checkEncryptedKey_unencrypted (env : KeyEnv) (sshKey sshKeyPath buf : String)
    (tp : List Event) (key : Option Signer)
    (hb : keyBuff env sshKey sshKeyPath = ⟨tp, .returned buf⟩)
    (h1 : env.ParsePrivateKey buf = (key, none)) :
    (checkEncryptedKey env sshKey sshKeyPath).outcome = .returned (key, none) ∧
      prompts (checkEncryptedKey env sshKey sshKeyPath).trace = 0 := by
  have hp : prompts tp = 0 := by
    have := prompts_keyBuff env sshKey sshKeyPath
    rwa [hb] at this
  simp [checkEncryptedKey, hb, h1, prompts, prompts_append, hp]

theorem checkEncryptedKey_unencrypted_witness :
    (checkEncryptedKey (keyEnvExample "" ("secret", none)) "" "~/k").outcome
        = .returned (some ⟨1⟩, none) ∧
      prompts (checkEncryptedKey (keyEnvExample "" ("secret", none)) "" "~/k").trace = 0 :=
  checkEncryptedKey_unencrypted (keyEnvExample "" ("secret", none)) "" "~/k" "PLAIN"
    [Event.Getenv "HOME", Event.ReadFile "k"] (some ⟨1⟩) (by decide) (by decide)

/-- When the first parse fails with an error whose text does not contain
`decode encrypted private keys`, `checkEncryptedKey` returns the result of that parse
unchanged and never prompts. -/
theorem checkEncryptedKey_other_error (env : KeyEnv) (sshKey sshKeyPath buf : String)
    (tp : List Event) (key : Option Signer) (e : GoError)
    (hb : keyBuff env sshKey sshKeyPath = ⟨tp, .returned buf⟩)
    (h1 : env.ParsePrivateKey buf = (key, some e))
    (hc : stringsContains e.Error "decode encrypted private keys" = false) :
    (checkEncryptedKey env sshKey sshKeyPath).outcome = .returned (key, some e) ∧
      prompts (checkEncryptedKey env sshKey sshKeyPath).trace = 0 := by
  have hp : prompts tp = 0 := by
    have := prompts_keyBuff env sshKey sshKeyPath
    rwa [hb] at this
  simp [checkEncryptedKey, hb, h1, hc, prompts, prompts_append, hp]

theorem checkEncryptedKey_other_error_witness :
    (checkEncryptedKey (keyEnvExample "" ("secret", none)) "garbage" "").outcome
        = .returned (none, some ⟨"ssh: no key found"⟩) ∧
      prompts (checkEncryptedKey (keyEnvExample "" ("secret", none)) "garbage" "").trace = 0 :=
  checkEncryptedKey_other_error (keyEnvExample "" ("secret", none)) "garbage" "" "garbage"
    [] none ⟨"ssh: no key found"⟩ (by decide) (by decide) (by decide)

/-- When the first parse fails with an error whose text contains
`decode encrypted private keys` and the recovery fails, either because reading the
passphrase fails or because the second parse fails, `checkEncryptedKey` returns the nil
signer with the error of the failing step, after exactly one prompt. -/
theorem checkEncryptedKey_recovery_fails (env : KeyEnv)
    (sshKey sshKeyPath buf passphrase : String) (tp : List Event) (key key2 : Option Signer)
    (e : GoError) (readErr parseErr : Option GoError)
    (hb : keyBuff env sshKey sshKeyPath = ⟨tp, .returned buf⟩)
    (h1 : env.ParsePrivateKey buf = (key, some e))
    (hc : stringsContains e.Error "decode encrypted private keys" = true)
    (hr : env.ReadPassword 0 = (passphrase, readErr))
    (h2 : env.ParsePrivateKeyWithPassphrase buf passphrase = (key2, parseErr))
    (hfail : readErr ≠ none ∨ parseErr ≠ none) :
    (checkEncryptedKey env sshKey sshKeyPath).outcome
        = .returned (none, if readErr ≠ none then readErr else parseErr) ∧
      prompts (checkEncryptedKey env sshKey sshKeyPath).trace = 1 := by
  have hp : prompts tp = 0 := by
    have := prompts_keyBuff env sshKey sshKeyPath
    rwa [hb] at this
  cases readErr with
  | some re => simp [checkEncryptedKey, hb, h1, hc, hr, prompts, prompts_append, hp]
  | none =>
    cases parseErr with
    | some pe => simp [checkEncryptedKey, hb, h1, hc, hr, h2, prompts, prompts_append, hp]
    | none => simp at hfail

theorem checkEncryptedKey_recovery_fails_witness :
    (checkEncryptedKey (keyEnvExample "/home/u" ("wrong", none)) "ENCRYPTED" "").outcome
        = .returned (none, some ⟨"x509: decryption password incorrect"⟩) ∧
      prompts (checkEncryptedKey (keyEnvExample "/home/u" ("wrong", none))
        "ENCRYPTED" "").trace = 1 :=
  have h := checkEncryptedKey_recovery_fails (keyEnvExample "/home/u" ("wrong", none))
    "ENCRYPTED" "" "ENCRYPTED" "wrong" [] none none
    ⟨"ssh: cannot decode encrypted private keys"⟩ none
    (some ⟨"x509: decryption password incorrect"⟩)
    (by decide) (by decide) (by decide) (by decide) (by decide) (Or.inr (by decide))
  ⟨h.1.trans (by decide), h.2⟩

end hosts
